import Mathlib

/-!
# Verification of the lcc-toolkit legislation search layer

A shallow embedding of the search-query composition, country-metadata
filtering, result hydration and pagination implemented in
`lcc/views/legislation.py` and `lcc/views/country.py`, together with
theorems settling the specification claims about them.

Conventions of the embedding:
* analyzed text fields of the search index are modelled as lists of terms;
* facet-name fields (classifications, tags and their denormalized copies)
  are modelled as lists of names;
* fallible Python code is modelled with `Except`;
* query-string parameters are `Option String` (`none` = absent).
-/

set_option maxHeartbeats 1000000

/-- The Python-level failure modes the embedded code can hit. -/
inductive PyError where
  | typeError (msg : String)
  | valueError (msg : String)
  | indexError (msg : String)
  deriving DecidableEq, Repr

/-- A decimal digit's value. -/
def pyDigit (c : Char) : Option Nat :=
  if c.isDigit then some (c.toNat - 48) else none

/-- Accumulating decimal parser over a character list. -/
def pyNatAux : List Char → Nat → Option Nat
  | [], acc => some acc
  | c :: cs, acc =>
    match pyDigit c with
    | some d => pyNatAux cs (acc * 10 + d)
    | none => none

/-- Python `int(s)` on a plain string: an optional minus sign followed by at
least one decimal digit; anything else raises `ValueError` (modelled as
`none`).  Surrounding whitespace and a leading plus sign are not modelled. -/
def pyStrToInt (s : String) : Option Int :=
  match s.toList with
  | [] => none
  | '-' :: rest =>
    if rest.isEmpty then none
    else (pyNatAux rest 0).map (fun n => -(n : Int))
  | cs => (pyNatAux cs 0).map (fun n => (n : Int))

/-- Python list indexing `xs[i]`, including negative indices counted from the
end of the list; `none` models `IndexError`. -/
def pyListGet (xs : List α) (i : Int) : Option α :=
  let j : Int := if i < 0 then (xs.length : Int) + i else i
  if 0 ≤ j then xs[j.toNat]? else none

/-- Truthiness of an optional query-string value: absent or empty is falsy. -/
def truthy : Option String → Bool
  | some s => !(s == "")
  | none => false

/-! ## Facet Filter Builder (`lcc/views/country.py`) -/

/-- Embeds `CountryMetadataFiltering.filter_range_fields` (country.py:51-58) for
one range-bucketed metadata field.  The request parameter, when present, is
converted with `int(...)` and used to index the field's bucket table
(`self.RANGE_FIELDS[field][int(request.GET.get(field))]`); the bucket's two
components become the `field__gte` / `field__lte` predicate entries.
`.ok none` means the parameter was absent and no predicate is added. -/
def filter_range_fields (table : List (Int × Int)) (param : Option String) :
    Except PyError (Option (Int × Int)) :=
  match param with
  | none => .ok none
  | some s =>
    match pyStrToInt s with
    | none => .error (.valueError "invalid literal for int")
    | some i =>
      match pyListGet table i with
      | none => .error (.indexError "list index out of range")
      | some bucket => .ok (some bucket)

/-- The relational predicate `{field}__gte=min, {field}__lte=max` applied to the
country set (each country represented by its value of the filtered field). -/
def applyRangeFilter (countries : List Int) (bucket : Int × Int) : List Int :=
  countries.filter (fun v => bucket.1 ≤ v && v ≤ bucket.2)

/-- The parameter names (after `self`) of
`CountryMetadataFiltering.filter_countries` (country.py:60):
`def filter_countries(self, request, filteres=None)`. -/
def filterCountriesParams : List String := ["request", "filteres"]

/-- Python keyword-argument binding: a call binds iff every supplied keyword
names a declared parameter of the callee. -/
def acceptsKwargs (params kwargs : List String) : Bool :=
  kwargs.all (fun k => params.contains k)

/-- The call `self.filter_countries(self.request, selected_countries=...)`
made at legislation.py:417, checked against the callee signature. -/
def callFilterCountries (kwargs : List String) : Except PyError Unit :=
  if acceptsKwargs filterCountriesParams kwargs then .ok ()
  else .error (.typeError
    "filter_countries() got an unexpected keyword argument selected_countries")

/-! ## Sort-key selection (`LegislationExplorer.get_sort`) -/

/-- Embeds `LegislationExplorer.get_sort` (legislation.py:174-186):
`promulgation_sort` wins over `country_sort`; the value `1` selects ascending
order, any other truthy value selects descending order. -/
def get_sort (promulgationSort countrySort : Option String) : Option String :=
  if truthy promulgationSort then
    if promulgationSort == some "1" then some "year" else some "-year"
  else if truthy countrySort then
    if countrySort == some "1" then some "country_name" else some "-country_name"
  else none

/-! ## Paginated Result Adapter (Django `Paginator`, legislation.py:454-466) -/

/-- The two exceptions `Paginator.validate_number` can raise. -/
inductive PaginatorError where
  | pageNotAnInteger
  | emptyPage
  deriving DecidableEq, Repr

/-- Models `django.core.paginator.Paginator.num_pages` with `orphans=0` and
`allow_empty_first_page=True`: `ceil(max(1, count) / per_page)`. -/
def num_pages (count perPage : Nat) : Nat :=
  (max 1 count + perPage - 1) / perPage

/-- Models `Paginator.validate_number` on an integer page number: numbers below
1 and numbers above `num_pages` raise `EmptyPage`.  (The `number == 1 and
allow_empty_first_page` escape never fires because `num_pages` is at least 1.) -/
def validate_number (np : Nat) (n : Int) : Except PaginatorError Nat :=
  if n < 1 then .error .emptyPage
  else if (np : Int) < n then .error .emptyPage
  else .ok n.toNat

/-- `Paginator.validate_number` on a raw query-string value: non-integer input
raises `PageNotAnInteger`. -/
def validate_number_str (np : Nat) (s : String) : Except PaginatorError Nat :=
  match pyStrToInt s with
  | none => .error .pageNotAnInteger
  | some n => validate_number np n

/-- The object window backing Django page `n`
(`object_list[(n-1)*per_page : n*per_page]`). -/
def page_slice (objects : List α) (perPage n : Nat) : List α :=
  (objects.drop ((n - 1) * perPage)).take perPage

/-- Embeds the pagination tail of `LegislationExplorer.get_queryset`
(legislation.py:454-466): `paginator.page(page)` guarded by
`except PageNotAnInteger: page(1)` and `except EmptyPage: page(num_pages)`.
The absent-parameter default is the integer `1`
(`self.request.GET.get('page', 1)`).  Returns the delivered page number and
its object window. -/
def explorer_page (objects : List α) (perPage : Nat) (pageParam : Option String) :
    Nat × List α :=
  let np := num_pages objects.length perPage
  let attempt : Except PaginatorError Nat :=
    match pageParam with
    | none => validate_number np 1
    | some s => validate_number_str np s
  match attempt with
  | .ok n => (n, page_slice objects perPage n)
  | .error .pageNotAnInteger => (1, page_slice objects perPage 1)
  | .error .emptyPage => (np, page_slice objects perPage np)

/-! ## Search-index document model (`lcc/documents.py` projection) -/

/-- A nested article as indexed: its own analyzed text and facet-name lists
plus the denormalized `parent_*` lists copied from the owning document. -/
structure ArticleDoc where
  pk : Nat
  code : String
  text : List String
  classifications_text : List String
  tags_text : List String
  parent_classifications : List String
  parent_tags : List String
  deriving DecidableEq, Repr

/-- A legislation document as indexed: analyzed text fields, facet-name lists
(both the document's own and the `article_*` lists aggregated from its
articles), country/law-type keywords, the three year fields, and the nested
articles. -/
structure LegislationDoc where
  id : Nat
  title : List String
  abstract : List String
  pdf_text : List String
  country : String
  law_type : String
  year : Option Int
  year_amendment : Option Int
  year_mentions : Option Int
  classifications : List String
  tags : List String
  article_classifications : List String
  article_tags : List String
  articles : List ArticleDoc
  deriving DecidableEq, Repr

/-- `match_phrase` against a facet-name field: the phrase matches iff it is
one of the indexed names. -/
def match_phrase (field : List String) (name : String) : Bool :=
  field.contains name

/-- `multi_match` (default `best_fields` with OR operator): some term of the
query occurs in some of the listed fields. -/
def multi_match (queryTerms : List String) (fields : List (List String)) : Bool :=
  fields.any (fun f => queryTerms.any (fun t => f.contains t))

/-- `match_phrase` against an analyzed text field: the query's term sequence
occurs contiguously in the field. -/
def match_phrase_text (field queryTerms : List String) : Bool :=
  decide (queryTerms <:+: field)

/-- `functools.reduce(operator.or_, qs)`: fails with `TypeError` on an empty
list (no initial value), otherwise the disjunction of the queries. -/
def reduceOr {α : Type} (qs : List (α → Bool)) : Except PyError (α → Bool) :=
  match qs with
  | [] => .error (.typeError "reduce() of empty iterable with no initial value")
  | q :: rest => .ok (fun a => (q :: rest).any (fun f => f a))

/-- `functools.reduce(operator.and_, qs)`: fails with `TypeError` on an empty
list, otherwise the conjunction of the queries. -/
def reduceAnd {α : Type} (qs : List (α → Bool)) : Except PyError (α → Bool) :=
  match qs with
  | [] => .error (.typeError "reduce() of empty iterable with no initial value")
  | q :: rest => .ok (fun a => (q :: rest).all (fun f => f a))

/-- The facet selections of a search request after taxonomy-identifier
resolution: `hasClassifications` / `hasTags` record whether the
`classifications[]` / `tags[]` parameters were supplied (non-empty identifier
lists), and the name lists are the resolved taxonomy names. -/
structure FacetRequest where
  hasClassifications : Bool
  classificationNames : List String
  hasTags : Bool
  tagNames : List String
  deriving DecidableEq, Repr

/-- The classification entry of `law_queries` (legislation.py:216-230):
`reduce(or_, match_phrase classifications=name) | reduce(or_, match_phrase
article_classifications=name)` over the resolved names. -/
def classification_law_query (names : List String) :
    Except PyError (LegislationDoc → Bool) := do
  let a ← reduceOr (names.map (fun n => fun doc => match_phrase doc.classifications n))
  let b ← reduceOr (names.map (fun n => fun doc => match_phrase doc.article_classifications n))
  pure (fun doc => a doc || b doc)

/-- The classification entry of `article_queries` (legislation.py:233-251). -/
def classification_article_query (names : List String) :
    Except PyError (ArticleDoc → Bool) := do
  let a ← reduceOr (names.map (fun n => fun art => match_phrase art.classifications_text n))
  let b ← reduceOr (names.map (fun n => fun art => match_phrase art.parent_classifications n))
  pure (fun art => a art || b art)

/-- The tag entry of `law_queries` (legislation.py:263-277). -/
def tag_law_query (names : List String) :
    Except PyError (LegislationDoc → Bool) := do
  let a ← reduceOr (names.map (fun n => fun doc => match_phrase doc.tags n))
  let b ← reduceOr (names.map (fun n => fun doc => match_phrase doc.article_tags n))
  pure (fun doc => a doc || b doc)

/-- The tag entry of `article_queries` (legislation.py:280-294). -/
def tag_article_query (names : List String) :
    Except PyError (ArticleDoc → Bool) := do
  let a ← reduceOr (names.map (fun n => fun art => match_phrase art.tags_text n))
  let b ← reduceOr (names.map (fun n => fun art => match_phrase art.parent_tags n))
  pure (fun art => a art || b art)

/-- The `law_queries` list built by `get_queryset` (legislation.py:197-277):
one entry per supplied facet parameter, classifications first. -/
def build_law_queries (fr : FacetRequest) :
    Except PyError (List (LegislationDoc → Bool)) := do
  let c ← if fr.hasClassifications then do
      let q ← classification_law_query fr.classificationNames
      pure [q]
    else pure []
  let t ← if fr.hasTags then do
      let q ← tag_law_query fr.tagNames
      pure [q]
    else pure []
  pure (c ++ t)

/-- The `article_queries` list built by `get_queryset` (legislation.py:198-294). -/
def build_article_queries (fr : FacetRequest) :
    Except PyError (List (ArticleDoc → Bool)) := do
  let c ← if fr.hasClassifications then do
      let q ← classification_article_query fr.classificationNames
      pure [q]
    else pure []
  let t ← if fr.hasTags then do
      let q ← tag_article_query fr.tagNames
      pure [q]
    else pure []
  pure (c ++ t)

/-- The free-text root-document query `law_q_query` (legislation.py:306-313):
`multi_match` over title, abstract, pdf_text, classifications and tags. -/
def law_q_query (qTerms : List String) : LegislationDoc → Bool :=
  fun doc =>
    multi_match qTerms
      [doc.title, doc.abstract, doc.pdf_text, doc.classifications, doc.tags]

/-- The free-text nested query `article_q_query` (legislation.py:315-324):
`multi_match` on `articles.text` OR a boosted `constant_score` phrase match on
the same field (the boost affects scoring only, not boolean matching). -/
def article_q_query (qTerms : List String) : ArticleDoc → Bool :=
  fun art =>
    multi_match qTerms [art.text] || match_phrase_text art.text qTerms

/-- A `bool` query with `must=qs`: the conjunction of the listed queries. -/
def mustAll (qs : List (LegislationDoc → Bool)) : LegislationDoc → Bool :=
  fun doc => qs.all (fun f => f doc)

/-- A `nested` query on path `articles`: some article satisfies the inner
query (`score_mode` and `inner_hits` affect scoring and highlighting only). -/
def nestedArticles (p : ArticleDoc → Bool) : LegislationDoc → Bool :=
  fun doc => doc.articles.any p

/-- The first free-text disjunct `q_in_law` (legislation.py:332-350):
`bool must = law_queries + law_q_query + [nested(AND article_queries)]`, the
nested clause present only when `article_queries` is non-empty. -/
def q_in_law_query (fr : FacetRequest) (qTerms : List String) :
    Except PyError (LegislationDoc → Bool) := do
  let lawQs ← build_law_queries fr
  let articleQs ← build_article_queries fr
  let nestedPart ← if articleQs.isEmpty then pure [] else do
      let aq ← reduceAnd articleQs
      pure [nestedArticles aq]
  pure (mustAll (lawQs ++ [law_q_query qTerms] ++ nestedPart))

/-- The second free-text disjunct `q_in_article` (legislation.py:351-374):
`bool must = law_queries + [nested(AND (article_queries + article_q_query))]`.
The guard `if article_queries or article_q_query` is always true here because
`article_q_query` is non-empty whenever a free-text query is present. -/
def q_in_article_query (fr : FacetRequest) (qTerms : List String) :
    Except PyError (LegislationDoc → Bool) := do
  let lawQs ← build_law_queries fr
  let articleQs ← build_article_queries fr
  let aq ← reduceAnd (articleQs ++ [article_q_query qTerms])
  pure (mustAll (lawQs ++ [nestedArticles aq]))

/-- The composed top-level query on the free-text path (legislation.py:375):
`search.query(q_in_law | q_in_article)`. -/
def text_search_query (fr : FacetRequest) (qTerms : List String) :
    Except PyError (LegislationDoc → Bool) := do
  let a ← q_in_law_query fr qTerms
  let b ← q_in_article_query fr qTerms
  pure (fun doc => a doc || b doc)

/-- The composed top-level query on the facet-only path
(legislation.py:378-410): `root_query = [AND law_queries]` when `law_queries`
is non-empty, `nested_query = [nested (AND article_queries)]` when
`article_queries` is non-empty; `final_query` collects `root_query`, plus
`nested_query` when `root_query` is non-empty; the result is
`bool should=final_query, minimum_should_match=1` when `final_query` is
non-empty, otherwise no query is applied at this step (`.ok none`). -/
def facet_only_query (fr : FacetRequest) :
    Except PyError (Option (LegislationDoc → Bool)) := do
  let lawQs ← build_law_queries fr
  let articleQs ← build_article_queries fr
  let rootQuery ← if lawQs.isEmpty then pure [] else do
      let r ← reduceAnd lawQs
      pure [r]
  let nestedQuery ← if articleQs.isEmpty then pure [] else do
      let aq ← reduceAnd articleQs
      pure [nestedArticles aq]
  let finalQuery :=
    if rootQuery.isEmpty then ([] : List (LegislationDoc → Bool))
    else rootQuery ++ (if nestedQuery.isEmpty then [] else nestedQuery)
  if finalQuery.isEmpty then pure none
  else pure (some (fun doc => finalQuery.any (fun f => f doc)))

/-- Evaluates a fallibly-composed query at one document: `none` when the
composition itself failed. -/
def runQuery (q : Except PyError (LegislationDoc → Bool)) (doc : LegislationDoc) :
    Option Bool :=
  match q with
  | .ok g => some (g doc)
  | .error _ => none

/-- Evaluates the facet-only composition at one document; when no query was
applied every document matches. -/
def runFacetQuery (q : Except PyError (Option (LegislationDoc → Bool)))
    (doc : LegislationDoc) : Option Bool :=
  match q with
  | .ok (some g) => some (g doc)
  | .ok none => some true
  | .error _ => none

/-! ## Year-range filter (legislation.py:427-439) -/

/-- An elasticsearch `range` clause `{gte, lte}` on an optional field: a
document with the field absent does not match. -/
def range_match (field : Option Int) (gte lte : Int) : Bool :=
  match field with
  | some y => gte ≤ y && y ≤ lte
  | none => false

/-- The year query added when both bounds are present: `range` on `year` OR
`year_amendment` OR `year_mentions` (legislation.py:433-439). -/
def year_range_query (fromYear toYear : Int) : LegislationDoc → Bool :=
  fun doc =>
    range_match doc.year fromYear toYear ||
    range_match doc.year_amendment fromYear toYear ||
    range_match doc.year_mentions fromYear toYear

/-- Embeds the year-filter step of `get_queryset` (legislation.py:427-439):
`if all([from_year, to_year])` conjoins the year query onto the search,
otherwise the search is left unchanged; `int(...)` failures raise
`ValueError`. -/
def apply_year_filter (fromYear toYear : Option String)
    (base : LegislationDoc → Bool) : Except PyError (LegislationDoc → Bool) :=
  if truthy fromYear && truthy toYear then
    match pyStrToInt (fromYear.getD ""), pyStrToInt (toYear.getD "") with
    | some f, some t => .ok (fun doc => base doc && year_range_query f t doc)
    | _, _ => .error (.valueError "invalid literal for int")
  else .ok base

/-! ## Relational records and hydrated results -/

/-- An article as stored relationally: primary key, code, and the names of its
related tags and classifications. -/
structure StoredArticle where
  pk : Nat
  code : String
  tags : List String
  classifications : List String
  deriving DecidableEq, Repr

/-- A legislation record as stored relationally (the fields the explorer
reads), with its owned articles. -/
structure Legislation where
  pk : Nat
  year : Int
  country_name : String
  articles : List StoredArticle
  deriving DecidableEq, Repr

/-- One token of a CONN-joined facet highlight fragment: the facet name and
whether the index wrapped it in `<em>` markers.  `tag[4:-5]` in the source
strips the markers, which here is just the `name` component; `'<em>' in tag`
is the `em` flag. -/
structure FacetToken where
  name : String
  em : Bool
  deriving DecidableEq, Repr

/-- The document-level highlight payload of a hit (`hit.meta.highlight`);
every key is optional.  Text fields carry fragment lists, CONN-joined facet
fields carry the token list of their single zero-fragment value. -/
structure HitHighlight where
  abstract : Option (List String)
  pdf_text : Option (List String)
  title : Option (List String)
  classifications : Option (List FacetToken)
  article_classifications : Option (List FacetToken)
  tags : Option (List FacetToken)
  article_tags : Option (List FacetToken)
  deriving DecidableEq, Repr

/-- The highlight payload of one nested inner hit
(`article.meta.highlight`): `articles.text` fragments and the
`articles.classifications_text` / `articles.tags_text` token lists. -/
structure InnerHitHighlight where
  text : Option (List String)
  classifications_text : Option (List FacetToken)
  tags_text : Option (List FacetToken)
  deriving DecidableEq, Repr

/-- One nested inner hit (an article returned inside `inner_hits.articles`). -/
structure InnerArticleHit where
  pk : Nat
  code : String
  highlight : Option InnerHitHighlight
  deriving DecidableEq, Repr

/-- One document-level search hit: the backing record's primary key
(`hit.meta.id`), the optional highlight payload and the optional
`inner_hits.articles` hit list (`none` models the attribute being absent). -/
structure Hit where
  id : Nat
  highlight : Option HitHighlight
  inner_hits : Option (List InnerArticleHit)
  deriving DecidableEq, Repr

/-- One entry of `law._highlighted_articles`: the dict built per article. -/
structure ArticleDict where
  pk : Nat
  code : String
  text : Option String
  classifications : Option (List String)
  tags : Option (List String)
  deriving DecidableEq, Repr

/-- A law as hydrated by `HighlightedLaws.__getitem__`: the relational record
plus the `_highlighted_*` attributes attached to it (absent = `none`). -/
structure HydratedLaw where
  law : Legislation
  highlighted_abstract : Option String
  highlighted_pdf_text : Option String
  highlighted_title : Option String
  highlighted_classifications : Option (List String)
  highlighted_tags : Option (List String)
  highlighted_articles : Option (List ArticleDict)
  deriving DecidableEq, Repr

/-- `'<em>{}</em>'.format(s)`. -/
def emWrap (s : String) : String := "<em>" ++ s ++ "</em>"

/-- A highlight token rendered as the index returned it: emphasized names keep
their `<em>` markers, the rest are plain. -/
def renderToken (t : FacetToken) : String :=
  if t.em then emWrap t.name else t.name

/-- `[tag[4:-5] for tag in fragment.split(CONN) if '<em>' in tag]`: the names
of the emphasized tokens. -/
def matchedNames (tokens : List FacetToken) : List String :=
  (tokens.filter (fun t => t.em)).map (fun t => t.name)

/-- `' […] '.join(fragments)`. -/
def joinFragments (fragments : List String) : String :=
  String.intercalate " […] " fragments

/-- The two accumulator lists of the page loop, declared once per slice at
legislation.py:52-53 and appended to while iterating over the page's hits. -/
structure HydratorAcc where
  matched_article_tags : List String
  matched_article_classifications : List String
  deriving DecidableEq, Repr

/-- The dict built for one nested inner hit (legislation.py:96-127); an inner
hit without a highlight payload is skipped by `continue`. -/
def inner_hit_dict (a : InnerArticleHit) : Option ArticleDict :=
  match a.highlight with
  | none => none
  | some h =>
    some
      { pk := a.pk
        code := a.code
        text := h.text.map joinFragments
        classifications := h.classifications_text.map (fun l => l.map renderToken)
        tags := h.tags_text.map (fun l => l.map renderToken) }

/-- The relational fallback filter (legislation.py:138-144):
`law.articles.filter(DjQ(tags__name__in=matched_tags) |
DjQ(classifications__name__in=matched_classifications))`. -/
def article_matches_fallback (matchedTags matchedCls : List String)
    (a : StoredArticle) : Bool :=
  a.tags.any (fun n => matchedTags.contains n) ||
  a.classifications.any (fun n => matchedCls.contains n)

/-- The dict synthesized for one fallback article (legislation.py:146-161):
matching tag and classification names are wrapped in `<em>` markers, the rest
are kept plain. -/
def fallback_article_dict (matchedTags matchedCls : List String)
    (a : StoredArticle) : ArticleDict :=
  { pk := a.pk
    code := a.code
    text := none
    classifications :=
      some (a.classifications.map
        (fun n => if matchedCls.contains n then emWrap n else n))
    tags :=
      some (a.tags.map (fun n => if matchedTags.contains n then emWrap n else n)) }

/-- The fallback `_highlighted_articles` list (legislation.py:137-162). -/
def fallback_articles (law : Legislation) (matchedTags matchedCls : List String) :
    List ArticleDict :=
  (law.articles.filter (article_matches_fallback matchedTags matchedCls)).map
    (fallback_article_dict matchedTags matchedCls)

/-- Embeds the body of the per-hit loop of `HighlightedLaws.__getitem__`
(legislation.py:54-163): extract the document-level highlights, extend the two
page-wide accumulators with the emphasized `article_classifications` /
`article_tags` names, then build `_highlighted_articles` — from the inner hits
when any were returned, through the relational fallback when none were but the
accumulators are non-empty, and as the empty list otherwise.  Returns the
updated accumulators and the hydrated law. -/
def process_hit (acc : HydratorAcc) (hit : Hit) (law : Legislation) :
    HydratorAcc × HydratedLaw :=
  let hl := hit.highlight
  let acc1 :=
    match hl.bind (fun h => h.article_classifications) with
    | some toks =>
        { acc with matched_article_classifications :=
            acc.matched_article_classifications ++ matchedNames toks }
    | none => acc
  let acc2 :=
    match hl.bind (fun h => h.article_tags) with
    | some toks =>
        { acc1 with matched_article_tags :=
            acc1.matched_article_tags ++ matchedNames toks }
    | none => acc1
  let articlesOut : Option (List ArticleDict) :=
    match hit.inner_hits with
    | none => none
    | some inner =>
      if !inner.isEmpty then
        some (inner.filterMap inner_hit_dict)
      else if !acc2.matched_article_classifications.isEmpty ||
              !acc2.matched_article_tags.isEmpty then
        some (fallback_articles law acc2.matched_article_tags
          acc2.matched_article_classifications)
      else some []
  (acc2,
    { law := law
      highlighted_abstract := (hl.bind (fun h => h.abstract)).map joinFragments
      highlighted_pdf_text :=
        (hl.bind (fun h => h.pdf_text)).map
          (fun frags =>
            ((joinFragments frags).replace "<pre>" "").replace "</pre>" "")
      highlighted_title :=
        (hl.bind (fun h => h.title)).bind (fun l => l.head?)
      highlighted_classifications :=
        (hl.bind (fun h => h.classifications)).map (fun l => l.map renderToken)
      highlighted_tags :=
        (hl.bind (fun h => h.tags)).map (fun l => l.map renderToken)
      highlighted_articles := articlesOut })

/-- The page loop of `HighlightedLaws.__getitem__` threaded over the zipped
(hit, law) pairs, carrying the two accumulators. -/
def process_pairs (pairs : List (Hit × Legislation)) (acc : HydratorAcc) :
    List HydratedLaw :=
  match pairs with
  | [] => []
  | (hit, law) :: rest =>
    let (acc2, out) := process_hit acc hit law
    out :: process_pairs rest acc2

/-- One page slice of the unsorted path: the accumulators start empty once per
slice (legislation.py:52-53) and the loop runs over
`zip(hits, hits.to_queryset())` (legislation.py:54). -/
def process_page (hits : List Hit) (laws : List Legislation) : List HydratedLaw :=
  process_pairs (hits.zip laws) ⟨[], []⟩

/-- Models `Search.to_queryset(keep_order=True)` of django-elasticsearch-dsl:
fetch the records whose primary keys are among the hit identifiers, in hit
order; identifiers whose record has been deleted are silently absent. -/
def to_queryset (store : List Legislation) (hits : List Hit) : List Legislation :=
  (hits.map (fun h => h.id)).filterMap
    (fun i => store.find? (fun l => l.pk == i))

/-! ## Sorted lookup path (`HighlightedLaws.__getitem__` with a sort key) -/

/-- Boolean `≤` on strings (Mathlib's linear order on `String`). -/
def strLe (a b : String) : Bool := decide (a ≤ b)

/-- The comparator induced by an elasticsearch sort key: a leading `-` means
descending. -/
def sortKeyLe (key : String) (a b : Legislation) : Bool :=
  if key = "year" then decide (a.year ≤ b.year)
  else if key = "-year" then decide (b.year ≤ a.year)
  else if key = "country_name" then strLe a.country_name b.country_name
  else if key = "-country_name" then strLe b.country_name a.country_name
  else true

/-- `hits.sort(self.sort)`: the result set reordered by the sort key. -/
def apply_sort (key : String) (laws : List Legislation) : List Legislation :=
  laws.mergeSort (sortKeyLe key)

/-- A law returned on the sorted path: the bare relational record, with no
`_highlighted_*` attribute attached. -/
def plain_law (l : Legislation) : HydratedLaw :=
  ⟨l, none, none, none, none, none, none⟩

/-- Embeds `HighlightedLaws.__getitem__` (legislation.py:47-164) on one page
slice: with a sort key the page is the sorted, materialized records with no
highlight data (`hits.sort(self.sort).to_queryset()`); without one it is the
hydrated page. -/
def hl_getitem (sort : Option String) (store : List Legislation)
    (hits : List Hit) : List HydratedLaw :=
  match sort with
  | some key => (apply_sort key (to_queryset store hits)).map plain_law
  | none => process_page hits (to_queryset store hits)

/-! ## The get_queryset control flow up to the country filter (claim C1) -/

/-- Embeds the control flow of `LegislationExplorer.get_queryset`
(legislation.py:188-466) at the granularity claim C1 needs: when `get_sort`
returns a key the `if not sort:` block (legislation.py:330-450) is skipped
entirely; otherwise the free-text/facet query is composed
(legislation.py:330-410) and then legislation.py:417 calls
`self.filter_countries(self.request, selected_countries=...)`.  `qTerms`
carries the analyzed free-text query when the `q` parameter is truthy. -/
def get_queryset_flow (promulgationSort countrySort : Option String)
    (fr : FacetRequest) (qTerms : Option (List String)) : Except PyError Unit := do
  match get_sort promulgationSort countrySort with
  | some _ => pure ()
  | none => do
    match qTerms with
    | some ts => do
        let _ ← text_search_query fr ts
        pure ()
    | none => do
        let _ ← facet_only_query fr
        pure ()
    let _ ← callFilterCountries ["selected_countries"]
    pure ()

/-! ## Spec-shaped facet predicates

Clean disjunctive forms of the facet queries, used to state what the composed
queries amount to.  `facet_doc_match` is the conjunction, over the supplied
facet parameters, of "some selected name appears among the document's own or
article-aggregated names"; `facet_article_match` is the same for one nested
article (own or parent-denormalized names). -/

/-- Document-level facet predicate in clean conjunctive-over-facets form. -/
def facet_doc_match (fr : FacetRequest) (doc : LegislationDoc) : Bool :=
  (!fr.hasClassifications ||
    fr.classificationNames.any (fun n =>
      match_phrase doc.classifications n ||
      match_phrase doc.article_classifications n)) &&
  (!fr.hasTags ||
    fr.tagNames.any (fun n =>
      match_phrase doc.tags n || match_phrase doc.article_tags n))

/-- Article-level facet predicate in clean conjunctive-over-facets form. -/
def facet_article_match (fr : FacetRequest) (a : ArticleDoc) : Bool :=
  (!fr.hasClassifications ||
    fr.classificationNames.any (fun n =>
      match_phrase a.classifications_text n ||
      match_phrase a.parent_classifications n)) &&
  (!fr.hasTags ||
    fr.tagNames.any (fun n =>
      match_phrase a.tags_text n || match_phrase a.parent_tags n))

/-- Modelled from the spec (the exact wording of claim C2 and spec §4.2): the
top-level free-text query as the claim states it — "(text matched in the
parent document AND the nested article sub-query requires only the facet
predicates) OR (facet predicates matched in the parent document AND the
nested article sub-query requires the facet predicates AND the free text
inside an article)".  Note the first disjunct carries no document-level facet
requirement. -/
def spec_text_search_query (fr : FacetRequest) (qTerms : List String) :
    LegislationDoc → Bool :=
  fun doc =>
    (law_q_query qTerms doc && nestedArticles (facet_article_match fr) doc) ||
    (facet_doc_match fr doc &&
      nestedArticles
        (fun a => facet_article_match fr a && article_q_query qTerms a) doc)

/-- The corrected form of claim C2's disjunction: the first disjunct also
requires the document-level facet predicates, exactly as the code composes
`q_in_law`. -/
def amended_text_search_query (fr : FacetRequest) (qTerms : List String) :
    LegislationDoc → Bool :=
  fun doc =>
    (facet_doc_match fr doc && law_q_query qTerms doc &&
      nestedArticles (facet_article_match fr) doc) ||
    (facet_doc_match fr doc &&
      nestedArticles
        (fun a => facet_article_match fr a && article_q_query qTerms a) doc)

/-! ## Hydrator accumulator bookkeeping -/

/-- The emphasized `article_tags` names contributed by one hit's
document-level highlight. -/
def hit_matched_article_tags (hit : Hit) : List String :=
  match hit.highlight.bind (fun h => h.article_tags) with
  | some toks => matchedNames toks
  | none => []

/-- The emphasized `article_classifications` names contributed by one hit's
document-level highlight. -/
def hit_matched_article_classifications (hit : Hit) : List String :=
  match hit.highlight.bind (fun h => h.article_classifications) with
  | some toks => matchedNames toks
  | none => []

/-- The `matched_article_tags` accumulator after a list of hits has been
processed (in page order). -/
def page_matched_article_tags (hits : List Hit) : List String :=
  (hits.map hit_matched_article_tags).flatten

/-- The `matched_article_classifications` accumulator after a list of hits
has been processed (in page order). -/
def page_matched_article_classifications (hits : List Hit) : List String :=
  (hits.map hit_matched_article_classifications).flatten

/-- The accumulator state after threading `process_hit` over a pair list. -/
def pairs_acc (ps : List (Hit × Legislation)) (acc : HydratorAcc) : HydratorAcc :=
  match ps with
  | [] => acc
  | (hit, law) :: rest => pairs_acc rest (process_hit acc hit law).1

/-! ## Concrete inputs used by witnesses and counterexamples -/

/-- Three population-style buckets; positions 0, 1 and 2 are the valid
indices. -/
def demoBuckets : List (Int × Int) := [(0, 5), (6, 10), (11, 20)]

/-- Claim C2 demo: a tags-only facet selection. -/
def c2_request : FacetRequest := ⟨false, [], true, ["adaptation"]⟩

/-- Claim C2 demo: an article tagged `adaptation` whose parent lists are
empty. -/
def c2_article : ArticleDoc := ⟨1, "Art. 1", ["drainage"], [], ["adaptation"], [], []⟩

/-- Claim C2 demo: a document whose title matches the free text but whose
document-level tag lists are empty. -/
def c2_doc : LegislationDoc :=
  ⟨1, ["flood"], [], [], "ROU", "Law", some 2000, none, none, [], [], [], [],
    [c2_article]⟩

/-- Claim C7 demo: an article tagged `adaptation`, with the parent tag list
denormalized from the document. -/
def c7_article : ArticleDoc := ⟨1, "Art. 1", [], [], ["adaptation"], [], ["energy"]⟩

/-- Claim C7 demo: a document tagged `energy` whose article is tagged
`adaptation`, with consistent denormalized lists. -/
def c7_doc : LegislationDoc :=
  ⟨2, [], [], [], "ROU", "Law", none, none, none, [], ["energy"], [],
    ["adaptation"], [c7_article]⟩

/-- Claim C6 demo: a document whose amendment year is 2012. -/
def c6_doc : LegislationDoc :=
  ⟨3, [], [], [], "ROU", "Law", some 1999, some 2012, none, [], [], [], [], []⟩

/-- Claim C3 demo: a hit whose document-level highlight emphasizes the
article tag `adaptation` while its nested inner-hit list is empty. -/
def c3_hit : Hit :=
  ⟨4, some ⟨none, none, none, none, none, none, some [⟨"adaptation", true⟩]⟩,
    some []⟩

/-- Claim C3 demo: the backing record, whose article carries the tag
`adaptation`. -/
def c3_law : Legislation :=
  ⟨4, 2005, "Romania", [⟨41, "Art. 1", ["adaptation", "water"], ["Energy"]⟩]⟩

/-- Claim C10 demo: a first hit contributing the emphasized article tag
`adaptation`. -/
def c10_hit1 : Hit :=
  ⟨5, some ⟨none, none, none, none, none, none, some [⟨"adaptation", true⟩]⟩,
    some [⟨51, "Art. 1", some ⟨some ["frag"], none, none⟩⟩]⟩

/-- Claim C10 demo: the first hit's backing record. -/
def c10_law1 : Legislation := ⟨5, 2001, "Romania", []⟩

/-- Claim C10 demo: a later hit with an empty nested inner-hit list and no
document-level facet highlight of its own. -/
def c10_hit2 : Hit := ⟨6, none, some []⟩

/-- Claim C10 demo: the later hit's backing record; its article is tagged
`adaptation`, the name matched by the FIRST hit. -/
def c10_law2 : Legislation :=
  ⟨6, 2002, "Romania", [⟨61, "Art. 4", ["adaptation"], []⟩]⟩

/-- Claim C9 demo: a document-level highlight carrying only a title
fragment. -/
def c9_hl (s : String) : HitHighlight :=
  ⟨none, none, some [s], none, none, none, none⟩

/-- Claim C9 demo hits 1, 2 and 3, each with a distinct title highlight. -/
def c9_hit1 : Hit := ⟨1, some (c9_hl "<em>alpha</em>"), none⟩

/-- Claim C9 demo hit for document 2 (whose record is deleted). -/
def c9_hit2 : Hit := ⟨2, some (c9_hl "<em>beta</em>"), none⟩

/-- Claim C9 demo hit for document 3. -/
def c9_hit3 : Hit := ⟨3, some (c9_hl "<em>gamma</em>"), none⟩

/-- Claim C9 demo: record 1 (record 2 has been deleted from the store). -/
def c9_law1 : Legislation := ⟨1, 2000, "Albania", []⟩

/-- Claim C9 demo: record 3. -/
def c9_law3 : Legislation := ⟨3, 2002, "Brazil", []⟩

/-- Claim C8 demo laws with distinct years and country names. -/
def c8_lawA : Legislation := ⟨7, 1990, "Austria", []⟩

/-- Claim C8 demo law with the later year. -/
def c8_lawB : Legislation := ⟨8, 2015, "Zimbabwe", []⟩

/-- Claim C8 demo hits matching the two demo laws. -/
def c8_hits : List Hit := [⟨7, none, none⟩, ⟨8, none, none⟩]

/-- Claim C8 demo store. -/
def c8_store : List Legislation := [c8_lawA, c8_lawB]

/-! ## Helper lemmas -/

theorem reduceOr_ok {α : Type} (qs : List (α → Bool)) (h : qs ≠ []) :
    reduceOr qs = .ok (fun a => qs.any (fun f => f a)) := by
  cases qs with
  | nil => exact absurd rfl h
  | cons q rest => rfl

theorem reduceAnd_ok {α : Type} (qs : List (α → Bool)) (h : qs ≠ []) :
    reduceAnd qs = .ok (fun a => qs.all (fun f => f a)) := by
  cases qs with
  | nil => exact absurd rfl h
  | cons q rest => rfl

theorem any_map_apply {α β : Type} (l : List α) (g : α → β → Bool) (b : β) :
    (l.map (fun n => fun x => g n x)).any (fun f => f b) = l.any (fun n => g n b) := by
  induction l with
  | nil => rfl
  | cons x xs ih => simp only [List.map_cons, List.any_cons, ih]

theorem all_map_apply {α β : Type} (l : List α) (g : α → β → Bool) (b : β) :
    (l.map (fun n => fun x => g n x)).all (fun f => f b) = l.all (fun n => g n b) := by
  induction l with
  | nil => rfl
  | cons x xs ih => simp only [List.map_cons, List.all_cons, ih]

theorem classification_law_query_ok (names : List String) (h : names ≠ []) :
    classification_law_query names =
      .ok (fun doc =>
        names.any (fun n => match_phrase doc.classifications n) ||
        names.any (fun n => match_phrase doc.article_classifications n)) := by
  unfold classification_law_query
  rw [reduceOr_ok _ (by simpa using h), reduceOr_ok _ (by simpa using h)]
  show Except.ok _ = Except.ok _
  refine congrArg Except.ok ?_
  funext doc
  simp only [any_map_apply]

theorem tag_law_query_ok (names : List String) (h : names ≠ []) :
    tag_law_query names =
      .ok (fun doc =>
        names.any (fun n => match_phrase doc.tags n) ||
        names.any (fun n => match_phrase doc.article_tags n)) := by
  unfold tag_law_query
  rw [reduceOr_ok _ (by simpa using h), reduceOr_ok _ (by simpa using h)]
  show Except.ok _ = Except.ok _
  refine congrArg Except.ok ?_
  funext doc
  simp only [any_map_apply]

theorem classification_article_query_ok (names : List String) (h : names ≠ []) :
    classification_article_query names =
      .ok (fun art =>
        names.any (fun n => match_phrase art.classifications_text n) ||
        names.any (fun n => match_phrase art.parent_classifications n)) := by
  unfold classification_article_query
  rw [reduceOr_ok _ (by simpa using h), reduceOr_ok _ (by simpa using h)]
  show Except.ok _ = Except.ok _
  refine congrArg Except.ok ?_
  funext art
  simp only [any_map_apply]

theorem tag_article_query_ok (names : List String) (h : names ≠ []) :
    tag_article_query names =
      .ok (fun art =>
        names.any (fun n => match_phrase art.tags_text n) ||
        names.any (fun n => match_phrase art.parent_tags n)) := by
  unfold tag_article_query
  rw [reduceOr_ok _ (by simpa using h), reduceOr_ok _ (by simpa using h)]
  show Except.ok _ = Except.ok _
  refine congrArg Except.ok ?_
  funext art
  simp only [any_map_apply]

theorem any_or_split {α : Type} (l : List α) (f g : α → Bool) :
    (l.any fun x => f x || g x) = (l.any f || l.any g) := by
  induction l with
  | nil => rfl
  | cons x xs ih => cases hf : f x <;> cases hg : g x <;>
      simp [List.any_cons, hf, hg, ih]

theorem except_pure_eq {ε α : Type} (a : α) : (pure a : Except ε α) = .ok a := rfl

theorem except_bind_ok {ε α β : Type} (a : α) (f : α → Except ε β) :
    ((Except.ok a : Except ε α) >>= f) = f a := rfl

theorem except_map_ok {ε α β : Type} (f : α → β) (a : α) :
    (f <$> (Except.ok a : Except ε α)) = .ok (f a) := rfl

/-- The `law_queries` list in normal form, under resolvable facet names. -/
theorem build_law_queries_eq (fr : FacetRequest)
    (hc : fr.hasClassifications = true → fr.classificationNames ≠ [])
    (ht : fr.hasTags = true → fr.tagNames ≠ []) :
    build_law_queries fr =
      .ok ((if fr.hasClassifications then
              [fun doc =>
                fr.classificationNames.any
                  (fun n => match_phrase doc.classifications n) ||
                fr.classificationNames.any
                  (fun n => match_phrase doc.article_classifications n)]
            else []) ++
           (if fr.hasTags then
              [fun doc =>
                fr.tagNames.any (fun n => match_phrase doc.tags n) ||
                fr.tagNames.any (fun n => match_phrase doc.article_tags n)]
            else [])) := by
  unfold build_law_queries
  cases hC : fr.hasClassifications <;> cases hT : fr.hasTags
  · simp only [hC, hT, Bool.false_eq_true, if_false]
    rfl
  · simp [hC, hT, tag_law_query_ok _ (ht hT), except_pure_eq, except_bind_ok,
      except_map_ok]
  · simp [hC, hT, classification_law_query_ok _ (hc hC), except_pure_eq,
      except_bind_ok, except_map_ok]
  · simp [hC, hT, classification_law_query_ok _ (hc hC),
      tag_law_query_ok _ (ht hT), except_pure_eq, except_bind_ok, except_map_ok]

/-- The `article_queries` list in normal form, under resolvable facet names. -/
theorem build_article_queries_eq (fr : FacetRequest)
    (hc : fr.hasClassifications = true → fr.classificationNames ≠ [])
    (ht : fr.hasTags = true → fr.tagNames ≠ []) :
    build_article_queries fr =
      .ok ((if fr.hasClassifications then
              [fun art =>
                fr.classificationNames.any
                  (fun n => match_phrase art.classifications_text n) ||
                fr.classificationNames.any
                  (fun n => match_phrase art.parent_classifications n)]
            else []) ++
           (if fr.hasTags then
              [fun art =>
                fr.tagNames.any (fun n => match_phrase art.tags_text n) ||
                fr.tagNames.any (fun n => match_phrase art.parent_tags n)]
            else [])) := by
  unfold build_article_queries
  cases hC : fr.hasClassifications <;> cases hT : fr.hasTags
  · simp only [hC, hT, Bool.false_eq_true, if_false]
    rfl
  · simp [hC, hT, tag_article_query_ok _ (ht hT), except_pure_eq,
      except_bind_ok, except_map_ok]
  · simp [hC, hT, classification_article_query_ok _ (hc hC), except_pure_eq,
      except_bind_ok, except_map_ok]
  · simp [hC, hT, classification_article_query_ok _ (hc hC),
      tag_article_query_ok _ (ht hT), except_pure_eq, except_bind_ok,
      except_map_ok]

theorem exists_mem_or_split {α : Type} (l : List α) (p q : α → Prop) :
    (∃ x ∈ l, p x ∨ q x) ↔ (∃ x ∈ l, p x) ∨ (∃ x ∈ l, q x) := by
  constructor
  · rintro ⟨x, hx, h | h⟩
    exacts [Or.inl ⟨x, hx, h⟩, Or.inr ⟨x, hx, h⟩]
  · rintro (⟨x, hx, h⟩ | ⟨x, hx, h⟩)
    exacts [⟨x, hx, Or.inl h⟩, ⟨x, hx, Or.inr h⟩]

/-- The free-text composition in normal form: it is exactly the corrected
disjunction of claim C2 (both disjuncts carrying the document-level facet
predicates), provided at least one facet parameter was supplied. -/
theorem text_search_query_eq (fr : FacetRequest) (qTerms : List String)
    (hc : fr.hasClassifications = true → fr.classificationNames ≠ [])
    (ht : fr.hasTags = true → fr.tagNames ≠ [])
    (hfacet : fr.hasClassifications = true ∨ fr.hasTags = true) :
    text_search_query fr qTerms = .ok (amended_text_search_query fr qTerms) := by
  unfold text_search_query q_in_law_query q_in_article_query
  rw [build_law_queries_eq fr hc ht, build_article_queries_eq fr hc ht]
  cases hC : fr.hasClassifications <;> cases hT : fr.hasTags
  · rcases hfacet with h | h
    · rw [hC] at h
      exact absurd h (by simp)
    · rw [hT] at h
      exact absurd h (by simp)
  · simp only [hC, hT, Bool.false_eq_true, if_false, if_true,
      List.nil_append, List.append_nil, List.isEmpty_cons, List.cons_append,
      except_bind_ok, except_map_ok, except_pure_eq, Bool.not_false]
    show Except.ok _ = Except.ok _
    refine congrArg Except.ok ?_
    funext doc
    rw [Bool.eq_iff_iff]
    simp only [amended_text_search_query, facet_doc_match, facet_article_match,
      mustAll, nestedArticles, hC, hT, Bool.not_false, Bool.not_true,
      Bool.false_or, Bool.true_and, Bool.and_true, List.all_cons,
      List.all_nil, List.any_cons, List.any_nil, Bool.or_false,
      Bool.and_eq_true, Bool.or_eq_true, List.any_eq_true, any_or_split,
      true_or, true_and, or_true, and_true, and_assoc, or_assoc,
      exists_mem_or_split]
  · simp only [hC, hT, Bool.false_eq_true, if_false, if_true,
      List.nil_append, List.append_nil, List.isEmpty_cons, List.cons_append,
      except_bind_ok, except_map_ok, except_pure_eq, Bool.not_false]
    show Except.ok _ = Except.ok _
    refine congrArg Except.ok ?_
    funext doc
    rw [Bool.eq_iff_iff]
    simp only [amended_text_search_query, facet_doc_match, facet_article_match,
      mustAll, nestedArticles, hC, hT, Bool.not_false, Bool.not_true,
      Bool.false_or, Bool.true_and, Bool.and_true, List.all_cons,
      List.all_nil, List.any_cons, List.any_nil, Bool.or_false,
      Bool.and_eq_true, Bool.or_eq_true, List.any_eq_true, any_or_split,
      true_or, true_and, or_true, and_true, and_assoc, or_assoc,
      exists_mem_or_split]
  · simp only [hC, hT, Bool.false_eq_true, if_false, if_true,
      List.nil_append, List.append_nil, List.isEmpty_cons, List.cons_append,
      except_bind_ok, except_map_ok, except_pure_eq, Bool.not_false]
    show Except.ok _ = Except.ok _
    refine congrArg Except.ok ?_
    funext doc
    rw [Bool.eq_iff_iff]
    simp only [amended_text_search_query, facet_doc_match, facet_article_match,
      mustAll, nestedArticles, hC, hT, Bool.not_false, Bool.not_true,
      Bool.false_or, Bool.true_and, Bool.and_true, List.all_cons,
      List.all_nil, List.any_cons, List.any_nil, Bool.or_false,
      Bool.and_eq_true, Bool.or_eq_true, List.any_eq_true, any_or_split,
      true_or, true_and, or_true, and_true, and_assoc, or_assoc,
      exists_mem_or_split]

/-- The facet-only composition for a tags-only request, in normal form. -/
theorem facet_only_query_tags (names : List String) (hne : names ≠ []) :
    facet_only_query ⟨false, [], true, names⟩ =
      .ok (some (fun doc =>
        ((names.any (fun n => match_phrase doc.tags n) ||
          names.any (fun n => match_phrase doc.article_tags n)) ||
         (nestedArticles (fun a =>
            names.any (fun n => match_phrase a.tags_text n) ||
            names.any (fun n => match_phrase a.parent_tags n)) doc ||
          false)))) := by
  unfold facet_only_query
  rw [build_law_queries_eq _ (by simp) (fun _ => hne),
      build_article_queries_eq _ (by simp) (fun _ => hne)]
  simp only [Bool.false_eq_true, if_false, if_true, List.nil_append,
    except_bind_ok, except_pure_eq, List.isEmpty_cons]
  show Except.ok _ = Except.ok _
  refine congrArg Except.ok ?_
  refine congrArg some ?_
  funext doc
  simp only [List.cons_append, List.nil_append, List.any_cons, List.any_nil,
    List.all_cons, List.all_nil, Bool.and_true, nestedArticles]

/-- Under resolvable facet names the free-text composition always succeeds. -/
theorem text_search_query_isOk (fr : FacetRequest) (qTerms : List String)
    (hc : fr.hasClassifications = true → fr.classificationNames ≠ [])
    (ht : fr.hasTags = true → fr.tagNames ≠ []) :
    ∃ g, text_search_query fr qTerms = .ok g := by
  unfold text_search_query q_in_law_query q_in_article_query
  rw [build_law_queries_eq fr hc ht, build_article_queries_eq fr hc ht]
  cases hC : fr.hasClassifications <;> cases hT : fr.hasTags <;>
    simp only [hC, hT, Bool.false_eq_true, if_false, if_true,
      List.nil_append, List.append_nil, List.cons_append, List.isEmpty_cons,
      List.isEmpty_nil, except_bind_ok, except_pure_eq] <;>
    exact ⟨_, rfl⟩

/-- Under resolvable facet names the facet-only composition always succeeds. -/
theorem facet_only_query_isOk (fr : FacetRequest)
    (hc : fr.hasClassifications = true → fr.classificationNames ≠ [])
    (ht : fr.hasTags = true → fr.tagNames ≠ []) :
    ∃ g, facet_only_query fr = .ok g := by
  unfold facet_only_query
  rw [build_law_queries_eq fr hc ht, build_article_queries_eq fr hc ht]
  cases hC : fr.hasClassifications <;> cases hT : fr.hasTags <;>
    simp only [hC, hT, Bool.false_eq_true, if_false, if_true,
      List.nil_append, List.append_nil, List.cons_append, List.isEmpty_cons,
      List.isEmpty_nil, except_bind_ok, except_pure_eq] <;>
    exact ⟨_, rfl⟩

/-! ## Claim C1 -/

/-- **C1.** On every request without an explicit sort parameter the
`get_queryset` flow reaches the call
`self.filter_countries(self.request, selected_countries=...)`, whose keyword
argument the signature `filter_countries(self, request, filteres=None)` does
not accept, and therefore fails with a `TypeError` before the composed query
is ever executed: the unsorted search path never completes normally. -/
theorem c1_unsorted_path_raises_type_error (ps cs : Option String)
    (fr : FacetRequest) (qTerms : Option (List String))
    (hsort : get_sort ps cs = none)
    (hc : fr.hasClassifications = true → fr.classificationNames ≠ [])
    (ht : fr.hasTags = true → fr.tagNames ≠ []) :
    get_queryset_flow ps cs fr qTerms =
      .error (.typeError
        "filter_countries() got an unexpected keyword argument selected_countries") := by
  unfold get_queryset_flow
  rw [hsort]
  cases qTerms with
  | some ts =>
    obtain ⟨g, hg⟩ := text_search_query_isOk fr ts hc ht
    simp [hg, except_bind_ok, callFilterCountries, acceptsKwargs,
      filterCountriesParams]
  | none =>
    obtain ⟨g, hg⟩ := facet_only_query_isOk fr hc ht
    simp [hg, except_bind_ok, callFilterCountries, acceptsKwargs,
      filterCountriesParams]

/-- Witness for C1 at a concrete request: no sort parameters, a tags-only
facet selection, no free text. -/
theorem c1_unsorted_path_raises_type_error_witness :
    get_queryset_flow none none ⟨false, [], true, ["adaptation"]⟩ none =
      .error (.typeError
        "filter_countries() got an unexpected keyword argument selected_countries") :=
  c1_unsorted_path_raises_type_error none none ⟨false, [], true, ["adaptation"]⟩
    none rfl (by simp) (by simp)

/-! ## Claim C2 -/

/-- **C2 counterexample.** The composed free-text query is not the
disjunction the claim states: at the concrete request (free text `flood`,
selected tag `adaptation`) and a document whose title matches the text and
whose article carries the tag, the claim's disjunction matches but the
composed query does not, because the code's first disjunct also demands the
facet predicates in the parent document. -/
theorem c2_counterexample :
    runQuery (text_search_query c2_request ["flood"]) c2_doc = some false ∧
    spec_text_search_query c2_request ["flood"] c2_doc = true := by
  constructor
  · rfl
  · rfl

/-- **C2 (amended).** When a free-text query is present (no explicit sort)
and at least one facet is selected, the composed top-level query is exactly
the disjunction: (facet predicates matched in the parent AND text matched in
the parent AND the nested article sub-query requires only the facet
predicates) OR (facet predicates matched in the parent AND the nested article
sub-query requires the facet predicates AND the free text inside an
article). -/
theorem c2_amended_dual_disjunction (fr : FacetRequest) (qTerms : List String)
    (hc : fr.hasClassifications = true → fr.classificationNames ≠ [])
    (ht : fr.hasTags = true → fr.tagNames ≠ [])
    (hfacet : fr.hasClassifications = true ∨ fr.hasTags = true) :
    ∀ doc, runQuery (text_search_query fr qTerms) doc =
      some (amended_text_search_query fr qTerms doc) := by
  intro doc
  rw [text_search_query_eq fr qTerms hc ht hfacet]
  rfl

/-- Witness for the amended C2 at the concrete request of the
counterexample. -/
theorem c2_amended_dual_disjunction_witness :
    runQuery (text_search_query c2_request ["flood"]) c2_doc =
      some (amended_text_search_query c2_request ["flood"] c2_doc) :=
  c2_amended_dual_disjunction c2_request ["flood"] (by simp [c2_request])
    (by simp [c2_request]) (Or.inr (by simp [c2_request])) c2_doc

/-! ## Claim C6 -/

theorem range_match_iff (field : Option Int) (gte lte : Int) :
    range_match field gte lte = true ↔ ∃ y, field = some y ∧ gte ≤ y ∧ y ≤ lte := by
  cases field <;> simp [range_match, and_assoc]

theorem pyStrToInt_ne_empty (s : String) (n : Int) (h : pyStrToInt s = some n) :
    s ≠ "" := by
  intro he
  rw [he] at h
  exact Option.noConfusion h

/-- **C6.** With both year bounds supplied, a document passes the year filter
iff at least one of its three year fields lies in the inclusive range
`[from_year, to_year]`; when either bound is missing (absent or empty) the
year filter is skipped entirely and the search is left unfiltered. -/
theorem c6_year_range_filter (fs ts : String) (f t : Int)
    (base : LegislationDoc → Bool)
    (hf : pyStrToInt fs = some f) (ht : pyStrToInt ts = some t) :
    (∀ doc,
      runQuery (apply_year_filter (some fs) (some ts) base) doc = some true ↔
        (base doc = true ∧
          ((∃ y, doc.year = some y ∧ f ≤ y ∧ y ≤ t) ∨
           (∃ y, doc.year_amendment = some y ∧ f ≤ y ∧ y ≤ t) ∨
           (∃ y, doc.year_mentions = some y ∧ f ≤ y ∧ y ≤ t)))) ∧
    (∀ (fo to2 : Option String) (base2 : LegislationDoc → Bool),
      (truthy fo && truthy to2) = false →
        apply_year_filter fo to2 base2 = .ok base2) := by
  constructor
  · intro doc
    have hfs : truthy (some fs) = true := by
      simp [truthy, pyStrToInt_ne_empty fs f hf]
    have hts : truthy (some ts) = true := by
      simp [truthy, pyStrToInt_ne_empty ts t ht]
    unfold apply_year_filter
    rw [hfs, hts]
    simp only [Bool.and_self, if_true, Option.getD_some, hf, ht, runQuery]
    rw [Option.some_inj]
    simp [year_range_query, range_match_iff, or_assoc]
  · intro fo to2 base2 hfalse
    unfold apply_year_filter
    rw [hfalse]
    simp

/-- Witness for C6: bounds 2010–2015, a document amended in 2012, matched. -/
theorem c6_year_range_filter_witness :
    runQuery (apply_year_filter (some "2010") (some "2015") (fun _ => true))
      c6_doc = some true ∧
    apply_year_filter (some "2010") none (fun _ => true) =
      .ok (fun _ => true) := by
  have h := c6_year_range_filter "2010" "2015" 2010 2015 (fun _ => true)
    (by decide) (by decide)
  constructor
  · exact (h.1 c6_doc).mpr (by refine ⟨rfl, Or.inr (Or.inl ⟨2012, ?_, ?_, ?_⟩)⟩ <;> decide)
  · exact h.2 (some "2010") none (fun _ => true) (by decide)

/-! ## Claim C7 -/

/-- **C7.** For a tags-only request (no free text, no classifications) whose
identifiers resolve to a non-empty name list, and a document whose
denormalized lists are consistent (`article_tags` aggregates the articles'
tags, each article's `parent_tags` copies the document's tags), the composed
query matches the document iff the document's own tag list or some article's
tag list intersects the requested names; neither side requires the other. -/
theorem c7_tags_only_match (names : List String) (doc : LegislationDoc)
    (hne : names ≠ [])
    (hagg : ∀ n : String,
      n ∈ doc.article_tags ↔ ∃ a ∈ doc.articles, n ∈ a.tags_text)
    (hparent : ∀ a ∈ doc.articles, a.parent_tags = doc.tags) :
    runFacetQuery (facet_only_query ⟨false, [], true, names⟩) doc = some true ↔
      ((∃ n ∈ names, n ∈ doc.tags) ∨
       (∃ a ∈ doc.articles, ∃ n ∈ names, n ∈ a.tags_text)) := by
  rw [facet_only_query_tags names hne]
  simp only [runFacetQuery, Option.some_inj]
  simp only [match_phrase, nestedArticles, Bool.or_eq_true, Bool.or_false,
    List.any_eq_true, List.contains, List.elem_eq_mem, decide_eq_true_eq]
  constructor
  · rintro ((⟨n, hn, hmem⟩ | ⟨n, hn, hmem⟩) | ⟨a, ha, (⟨n, hn, hmem⟩ | ⟨n, hn, hmem⟩)⟩)
    · exact Or.inl ⟨n, hn, hmem⟩
    · obtain ⟨a, ha, hmem2⟩ := (hagg n).mp hmem
      exact Or.inr ⟨a, ha, n, hn, hmem2⟩
    · exact Or.inr ⟨a, ha, n, hn, hmem⟩
    · rw [hparent a ha] at hmem
      exact Or.inl ⟨n, hn, hmem⟩
  · rintro (⟨n, hn, hmem⟩ | ⟨a, ha, n, hn, hmem⟩)
    · exact Or.inl (Or.inl ⟨n, hn, hmem⟩)
    · exact Or.inr ⟨a, ha, Or.inl ⟨n, hn, hmem⟩⟩

/-- Witness for C7: the tag `adaptation` is carried only by the article, and
the document matches. -/
theorem c7_tags_only_match_witness :
    runFacetQuery (facet_only_query ⟨false, [], true, ["adaptation"]⟩) c7_doc =
      some true :=
  (c7_tags_only_match ["adaptation"] c7_doc (by simp)
    (by intro n; simp [c7_doc, c7_article])
    (by intro a ha; simp [c7_doc] at ha; simp [ha, c7_article, c7_doc])).mpr
    (Or.inr ⟨c7_article, by simp [c7_doc], "adaptation", by simp,
      by simp [c7_article]⟩)

/-! ## Claim C4 -/

theorem pyListGet_nonneg {α : Type} (xs : List α) (i : Int) (h0 : 0 ≤ i)
    (hlt : i.toNat < xs.length) :
    pyListGet xs i = some (xs.get ⟨i.toNat, hlt⟩) := by
  have h1 : ¬ (i < 0) := by omega
  simp only [pyListGet, if_neg h1]
  rw [if_pos h0, List.getElem?_eq_getElem hlt]
  simp

theorem pyListGet_none_of_ge {α : Type} (xs : List α) (i : Int)
    (h : (xs.length : Int) ≤ i) :
    pyListGet xs i = none := by
  have h0 : 0 ≤ i := le_trans (by exact_mod_cast Nat.zero_le _) h
  have h1 : ¬ (i < 0) := by omega
  simp only [pyListGet, if_neg h1]
  rw [if_pos h0, List.getElem?_eq_none (by omega)]

theorem pyListGet_none_of_lt_neg {α : Type} (xs : List α) (i : Int)
    (h : i < -(xs.length : Int)) :
    pyListGet xs i = none := by
  have h1 : i < 0 := by omega
  simp only [pyListGet, if_pos h1]
  rw [if_neg (by omega)]

theorem pyListGet_neg {α : Type} (xs : List α) (i : Int)
    (hlo : -(xs.length : Int) ≤ i) (hhi : i < 0)
    (hlt : ((xs.length : Int) + i).toNat < xs.length) :
    pyListGet xs i = some (xs.get ⟨((xs.length : Int) + i).toNat, hlt⟩) := by
  simp only [pyListGet, if_pos hhi]
  rw [if_pos (by omega), List.getElem?_eq_getElem hlt]
  simp

/-- **C4 counterexample.** The bucket index `-1` is not a valid position in
the three-element bucket table, yet the Facet Filter Builder accepts it
without any error and silently produces the last bucket's predicate (Python
negative indexing), contradicting the claim that every invalid index fails
with a validation error. -/
theorem c4_counterexample :
    (¬ (0 ≤ (-1 : Int) ∧ (-1 : Int) < (demoBuckets.length : Int))) ∧
    filter_range_fields demoBuckets (some "-1") = .ok (some (11, 20)) := by
  constructor
  · decide
  · rfl

/-- **C4 (amended).** For a range-bucketed metadata field: a valid
(non-negative, in-range) bucket index produces exactly the predicate
`field ≥ bucket.min AND field ≤ bucket.max` on the country set; a non-numeric
index fails with `ValueError` and an index outside `[-len, len)` fails with
`IndexError` — but a negative index in `[-len, -1]` is accepted silently and
selects the bucket counted from the end of the table. -/
theorem c4_range_bucket_filter_amended (table : List (Int × Int)) (s : String) :
    (∀ i : Int, pyStrToInt s = some i →
      ((∀ hvalid : i.toNat < table.length, 0 ≤ i →
        filter_range_fields table (some s) =
          .ok (some (table.get ⟨i.toNat, hvalid⟩)) ∧
        ∀ (countries : List Int) (v : Int),
          v ∈ applyRangeFilter countries (table.get ⟨i.toNat, hvalid⟩) ↔
            (v ∈ countries ∧ (table.get ⟨i.toNat, hvalid⟩).1 ≤ v ∧
              v ≤ (table.get ⟨i.toNat, hvalid⟩).2)) ∧
      ((table.length : Int) ≤ i ∨ i < -(table.length : Int) →
        filter_range_fields table (some s) =
          .error (.indexError "list index out of range")) ∧
      (-(table.length : Int) ≤ i → i < 0 →
        ∃ b, pyListGet table i = some b ∧
          filter_range_fields table (some s) = .ok (some b)))) ∧
    (pyStrToInt s = none →
      filter_range_fields table (some s) =
        .error (.valueError "invalid literal for int")) ∧
    filter_range_fields table none = .ok none := by
  refine ⟨?_, ?_, rfl⟩
  · intro i hi
    refine ⟨?_, ?_, ?_⟩
    · intro hvalid h0
      constructor
      · simp only [filter_range_fields, hi, pyListGet_nonneg table i h0 hvalid]
      · intro countries v
        simp [applyRangeFilter, List.mem_filter, and_assoc]
    · intro hout
      rcases hout with h | h
      · simp only [filter_range_fields, hi, pyListGet_none_of_ge table i h]
      · simp only [filter_range_fields, hi, pyListGet_none_of_lt_neg table i h]
    · intro hlo hhi
      have hlt : ((table.length : Int) + i).toNat < table.length := by omega
      refine ⟨table.get ⟨((table.length : Int) + i).toNat, hlt⟩,
        pyListGet_neg table i hlo hhi hlt, ?_⟩
      simp only [filter_range_fields, hi, pyListGet_neg table i hlo hhi hlt]
  · intro hnone
    simp only [filter_range_fields, hnone]

/-- Witness for the amended C4: index 1 is valid, index 7 and a non-numeric
index fail, index -3 silently selects the first bucket from the end. -/
theorem c4_range_bucket_filter_amended_witness :
    filter_range_fields demoBuckets (some "1") = .ok (some (6, 10)) ∧
    filter_range_fields demoBuckets (some "7") =
      .error (.indexError "list index out of range") ∧
    filter_range_fields demoBuckets (some "abc") =
      .error (.valueError "invalid literal for int") := by
  refine ⟨?_, ?_, ?_⟩
  · exact (((c4_range_bucket_filter_amended demoBuckets "1").1 1 (by decide)).1
      (by decide) (by decide)).1.trans (by rfl)
  · exact ((c4_range_bucket_filter_amended demoBuckets "7").1 7 (by decide)).2.1
      (by decide)
  · exact (c4_range_bucket_filter_amended demoBuckets "abc").2.1 (by decide)

/-! ## Claim C5 -/

theorem num_pages_pos (count perPage : Nat) (hp : 0 < perPage) :
    1 ≤ num_pages count perPage := by
  unfold num_pages
  rw [Nat.one_le_div_iff hp]
  have h1 : 1 ≤ max 1 count := Nat.le_max_left 1 count
  omega

/-- **C5 counterexample.** With four results and a page size of two (two
pages), requesting page `0` delivers the LAST page (page 2, objects
`[2, 3]`), not the first page: Django's `validate_number` raises `EmptyPage`
for any number below 1, and the view's handler answers `EmptyPage` with
`paginator.page(paginator.num_pages)`. -/
theorem c5_counterexample :
    explorer_page [0, 1, 2, 3] 2 (some "0") = (2, [2, 3]) ∧
    (explorer_page [0, 1, 2, 3] 2 (some "0")).1 ≠ 1 := by
  constructor
  · rfl
  · decide

/-- **C5 (amended).** The page operation never raises: it always delivers a
valid page (a number between 1 and `num_pages` with its object window).  A
non-integer page parameter gives the first page and a page number beyond the
last gives the last page, as the claim states; but a page number below 1
(including page `0`) gives the LAST page, not the first.  An in-range number
is honoured. -/
theorem c5_page_handling_amended {α : Type} (objects : List α) (perPage : Nat)
    (hp : 0 < perPage) (pageParam : Option String) :
    (1 ≤ (explorer_page objects perPage pageParam).1 ∧
     (explorer_page objects perPage pageParam).1 ≤
       num_pages objects.length perPage ∧
     (explorer_page objects perPage pageParam).2 =
       page_slice objects perPage (explorer_page objects perPage pageParam).1) ∧
    (∀ s n, pageParam = some s → pyStrToInt s = some n → n < 1 →
      (explorer_page objects perPage pageParam).1 =
        num_pages objects.length perPage) ∧
    (∀ s, pageParam = some s → pyStrToInt s = none →
      (explorer_page objects perPage pageParam).1 = 1) ∧
    (∀ s n, pageParam = some s → pyStrToInt s = some n →
      (num_pages objects.length perPage : Int) < n →
      (explorer_page objects perPage pageParam).1 =
        num_pages objects.length perPage) ∧
    (∀ s n, pageParam = some s → pyStrToInt s = some n → 1 ≤ n →
      n ≤ (num_pages objects.length perPage : Int) →
      (explorer_page objects perPage pageParam).1 = n.toNat) := by
  have hnp := num_pages_pos objects.length perPage hp
  cases pageParam with
  | none =>
    have h1 : validate_number (num_pages objects.length perPage) 1 = .ok 1 := by
      unfold validate_number
      rw [if_neg (by omega), if_neg (by omega)]
      rfl
    refine ⟨?_, ?_, ?_, ?_, ?_⟩
    · simp only [explorer_page, h1]
      exact ⟨le_refl 1, hnp, trivial⟩
    · intro s n hs
      exact absurd hs (by simp)
    · intro s hs
      exact absurd hs (by simp)
    · intro s n hs
      exact absurd hs (by simp)
    · intro s n hs
      exact absurd hs (by simp)
  | some s =>
    cases hparse : pyStrToInt s with
    | none =>
      refine ⟨?_, ?_, ?_, ?_, ?_⟩
      · simp only [explorer_page, validate_number_str, hparse]
        exact ⟨le_refl 1, hnp, trivial⟩
      · intro s2 n hs hp2
        rw [Option.some_inj] at hs
        rw [hs] at hparse
        rw [hparse] at hp2
        exact Option.noConfusion hp2
      · intro s2 hs hp2
        simp only [explorer_page, validate_number_str, hparse]
      · intro s2 n hs hp2
        rw [Option.some_inj] at hs
        rw [hs] at hparse
        rw [hparse] at hp2
        exact Option.noConfusion hp2
      · intro s2 n hs hp2
        rw [Option.some_inj] at hs
        rw [hs] at hparse
        rw [hparse] at hp2
        exact Option.noConfusion hp2
    | some n =>
      by_cases hlow : n < 1
      · have hv : validate_number_str (num_pages objects.length perPage) s =
            .error .emptyPage := by
          simp only [validate_number_str, validate_number, hparse]
          rw [if_pos hlow]
        refine ⟨?_, ?_, ?_, ?_, ?_⟩
        · simp only [explorer_page, hv]
          exact ⟨hnp, le_refl _, trivial⟩
        · intro s2 m hs hm hlt
          simp only [explorer_page, hv]
        · intro s2 hs hm
          rw [Option.some_inj] at hs
          rw [hs] at hparse
          rw [hparse] at hm
          exact Option.noConfusion hm
        · intro s2 m hs hm hlt
          simp only [explorer_page, hv]
        · intro s2 m hs hm h1m hmn
          rw [Option.some_inj] at hs
          rw [hs] at hparse
          rw [hparse] at hm
          rw [Option.some_inj] at hm
          omega
      · by_cases hhigh : (num_pages objects.length perPage : Int) < n
        · have hv : validate_number_str (num_pages objects.length perPage) s =
              .error .emptyPage := by
            simp only [validate_number_str, validate_number, hparse]
            rw [if_neg hlow, if_pos hhigh]
          refine ⟨?_, ?_, ?_, ?_, ?_⟩
          · simp only [explorer_page, hv]
            exact ⟨hnp, le_refl _, trivial⟩
          · intro s2 m hs hm hlt
            rw [Option.some_inj] at hs
            rw [hs] at hparse
            rw [hparse] at hm
            rw [Option.some_inj] at hm
            omega
          · intro s2 hs hm
            rw [Option.some_inj] at hs
            rw [hs] at hparse
            rw [hparse] at hm
            exact Option.noConfusion hm
          · intro s2 m hs hm hlt
            simp only [explorer_page, hv]
          · intro s2 m hs hm h1m hmn
            rw [Option.some_inj] at hs
            rw [hs] at hparse
            rw [hparse] at hm
            rw [Option.some_inj] at hm
            omega
        · have hv : validate_number_str (num_pages objects.length perPage) s =
              .ok n.toNat := by
            simp only [validate_number_str, validate_number, hparse]
            rw [if_neg hlow, if_neg hhigh]
          refine ⟨?_, ?_, ?_, ?_, ?_⟩
          · simp only [explorer_page, hv]
            exact ⟨by omega, by omega, trivial⟩
          · intro s2 m hs hm hlt
            rw [Option.some_inj] at hs
            rw [hs] at hparse
            rw [hparse] at hm
            rw [Option.some_inj] at hm
            omega
          · intro s2 hs hm
            rw [Option.some_inj] at hs
            rw [hs] at hparse
            rw [hparse] at hm
            exact Option.noConfusion hm
          · intro s2 m hs hm hlt
            rw [Option.some_inj] at hs
            rw [hs] at hparse
            rw [hparse] at hm
            rw [Option.some_inj] at hm
            omega
          · intro s2 m hs hm h1m hmn
            rw [Option.some_inj] at hs
            rw [hs] at hparse
            rw [hparse] at hm
            rw [Option.some_inj] at hm
            simp only [explorer_page, hv]
            omega

/-- Witness for the amended C5: a non-integer parameter gives page 1 and a
page far beyond the count gives the last page, on three objects with page
size two. -/
theorem c5_page_handling_amended_witness :
    (explorer_page ([10, 20, 30] : List Nat) 2 (some "zz")).1 = 1 ∧
    (explorer_page ([10, 20, 30] : List Nat) 2 (some "99")).1 = 2 := by
  constructor
  · exact (c5_page_handling_amended [10, 20, 30] 2 (by decide)
      (some "zz")).2.2.1 "zz" rfl (by decide)
  · exact ((c5_page_handling_amended [10, 20, 30] 2 (by decide)
      (some "99")).2.2.2.1 "99" 99 rfl (by decide) (by decide)).trans (by decide)

/-! ## Claim C3 -/

theorem process_hit_acc (acc : HydratorAcc) (hit : Hit) (law : Legislation) :
    (process_hit acc hit law).1 =
      ⟨acc.matched_article_tags ++ hit_matched_article_tags hit,
       acc.matched_article_classifications ++
         hit_matched_article_classifications hit⟩ := by
  unfold process_hit hit_matched_article_tags hit_matched_article_classifications
  cases hcl : hit.highlight.bind (fun h => h.article_classifications) <;>
    cases htg : hit.highlight.bind (fun h => h.article_tags) <;>
      simp [hcl, htg]

/-- The `_highlighted_articles` attachment of one processed hit, expressed
through the page-wide accumulator extensions. -/
theorem process_hit_articles (acc : HydratorAcc) (hit : Hit)
    (law : Legislation) :
    (process_hit acc hit law).2.highlighted_articles =
      (match hit.inner_hits with
       | none => none
       | some inner =>
         if !inner.isEmpty then some (inner.filterMap inner_hit_dict)
         else if (!(acc.matched_article_classifications ++
                    hit_matched_article_classifications hit).isEmpty ||
                  !(acc.matched_article_tags ++
                    hit_matched_article_tags hit).isEmpty) then
           some (fallback_articles law
             (acc.matched_article_tags ++ hit_matched_article_tags hit)
             (acc.matched_article_classifications ++
               hit_matched_article_classifications hit))
         else some []) := by
  unfold process_hit hit_matched_article_tags hit_matched_article_classifications
  cases hcl : hit.highlight.bind (fun h => h.article_classifications) <;>
    cases htg : hit.highlight.bind (fun h => h.article_tags) <;>
      simp [hcl, htg]

theorem process_hit_articles_fallback (acc : HydratorAcc) (hit : Hit)
    (law : Legislation) (hinner : hit.inner_hits = some [])
    (hne : (!(acc.matched_article_classifications ++
              hit_matched_article_classifications hit).isEmpty ||
            !(acc.matched_article_tags ++ hit_matched_article_tags hit).isEmpty)
        = true) :
    (process_hit acc hit law).2.highlighted_articles =
      some (fallback_articles law
        (acc.matched_article_tags ++ hit_matched_article_tags hit)
        (acc.matched_article_classifications ++
          hit_matched_article_classifications hit)) := by
  rw [process_hit_articles, hinner]
  simp [hne]

/-- **C3.** For a hit whose nested inner-hit list is empty while the matched
article-level facet name lists are non-trivial, the hydrator falls back to
the relational query over the document's articles whose tags or
classifications intersect the matched names, and attaches one entry per such
article with every matching name wrapped in `<em>` markers; whenever such a
facet match exists among the stored articles, the attached list is
non-empty. -/
theorem c3_fallback_reconstruction (acc : HydratorAcc) (hit : Hit)
    (law : Legislation) (mt mc : List String)
    (hinner : hit.inner_hits = some [])
    (hmt : mt = acc.matched_article_tags ++ hit_matched_article_tags hit)
    (hmc : mc = acc.matched_article_classifications ++
      hit_matched_article_classifications hit)
    (hstore : ∃ a ∈ law.articles, article_matches_fallback mt mc a = true) :
    (process_hit acc hit law).2.highlighted_articles =
      some (fallback_articles law mt mc) ∧
    fallback_articles law mt mc ≠ [] ∧
    ∀ d ∈ fallback_articles law mt mc,
      ∃ a ∈ law.articles, article_matches_fallback mt mc a = true ∧
        d.pk = a.pk ∧ d.code = a.code ∧
        d.tags =
          some (a.tags.map (fun n => if mt.contains n then emWrap n else n)) ∧
        d.classifications = some (a.classifications.map
          (fun n => if mc.contains n then emWrap n else n)) := by
  subst hmt
  subst hmc
  obtain ⟨a0, ha0, hmatch0⟩ := hstore
  have hne : (!(acc.matched_article_classifications ++
        hit_matched_article_classifications hit).isEmpty ||
      !(acc.matched_article_tags ++ hit_matched_article_tags hit).isEmpty)
      = true := by
    unfold article_matches_fallback at hmatch0
    rcases Bool.or_eq_true_iff.mp hmatch0 with h | h
    · obtain ⟨n, _, hn⟩ := List.any_eq_true.mp h
      have hne2 : acc.matched_article_tags ++ hit_matched_article_tags hit
          ≠ [] := by
        intro he
        rw [he] at hn
        simp at hn
      simp [List.isEmpty_iff, hne2]
    · obtain ⟨n, _, hn⟩ := List.any_eq_true.mp h
      have hne2 : acc.matched_article_classifications ++
          hit_matched_article_classifications hit ≠ [] := by
        intro he
        rw [he] at hn
        simp at hn
      simp [List.isEmpty_iff, hne2]
  refine ⟨process_hit_articles_fallback acc hit law hinner hne, ?_, ?_⟩
  · have hmem : a0 ∈ law.articles.filter
        (article_matches_fallback
          (acc.matched_article_tags ++ hit_matched_article_tags hit)
          (acc.matched_article_classifications ++
            hit_matched_article_classifications hit)) :=
      List.mem_filter.mpr ⟨ha0, hmatch0⟩
    exact List.ne_nil_of_mem (List.mem_map_of_mem _ hmem)
  · intro d hd
    obtain ⟨a, ha, rfl⟩ := List.mem_map.mp hd
    obtain ⟨ha1, ha2⟩ := List.mem_filter.mp ha
    exact ⟨a, ha1, ha2, rfl, rfl, rfl, rfl⟩

/-- Witness for C3: the matched tag `adaptation` with empty inner hits leads
to a non-empty fallback list built from the stored article. -/
theorem c3_fallback_reconstruction_witness :
    (process_hit ⟨[], []⟩ c3_hit c3_law).2.highlighted_articles =
      some (fallback_articles c3_law ["adaptation"] []) ∧
    fallback_articles c3_law ["adaptation"] [] ≠ [] := by
  have h := c3_fallback_reconstruction ⟨[], []⟩ c3_hit c3_law ["adaptation"] []
    rfl (by decide) (by decide)
    ⟨⟨41, "Art. 1", ["adaptation", "water"], ["Energy"]⟩, by simp [c3_law],
      by decide⟩
  exact ⟨h.1, h.2.1⟩

/-! ## Claim C10 -/

theorem page_matched_tags_append (hits1 : List Hit) (hit : Hit) :
    page_matched_article_tags (hits1 ++ [hit]) =
      page_matched_article_tags hits1 ++ hit_matched_article_tags hit := by
  simp [page_matched_article_tags]

theorem page_matched_classifications_append (hits1 : List Hit) (hit : Hit) :
    page_matched_article_classifications (hits1 ++ [hit]) =
      page_matched_article_classifications hits1 ++
        hit_matched_article_classifications hit := by
  simp [page_matched_article_classifications]

theorem process_pairs_append (ps : List (Hit × Legislation))
    (p : Hit × Legislation) (acc : HydratorAcc) :
    process_pairs (ps ++ [p]) acc =
      process_pairs ps acc ++ [(process_hit (pairs_acc ps acc) p.1 p.2).2] := by
  induction ps generalizing acc with
  | nil => rfl
  | cons q rest ih =>
    obtain ⟨qh, ql⟩ := q
    simp only [List.cons_append, process_pairs, pairs_acc, List.append_eq]
    rw [ih]

theorem pairs_acc_eq (ps : List (Hit × Legislation)) (acc : HydratorAcc) :
    pairs_acc ps acc =
      ⟨acc.matched_article_tags ++
         page_matched_article_tags (ps.map Prod.fst),
       acc.matched_article_classifications ++
         page_matched_article_classifications (ps.map Prod.fst)⟩ := by
  induction ps generalizing acc with
  | nil =>
    simp [pairs_acc, page_matched_article_tags,
      page_matched_article_classifications]
  | cons q rest ih =>
    obtain ⟨qh, ql⟩ := q
    simp only [pairs_acc, List.map_cons]
    rw [ih, process_hit_acc]
    simp [page_matched_article_tags, page_matched_article_classifications,
      List.append_assoc]

/-- **C10.** The two matched-facet accumulators are created once per page
slice and only appended to across the page's hits; consequently, when a later
hit on the page has an empty nested inner-hit list, its fallback article
reconstruction is computed from the names matched by ALL hits of the page up
to and including it — not only from that hit's own facet highlights. -/
theorem c10_fallback_uses_page_accumulators (hits1 : List Hit)
    (laws1 : List Legislation) (hit : Hit) (law : Legislation)
    (hlen : hits1.length = laws1.length)
    (hinner : hit.inner_hits = some [])
    (hne : (!(page_matched_article_classifications (hits1 ++ [hit])).isEmpty ||
            !(page_matched_article_tags (hits1 ++ [hit])).isEmpty) = true) :
    (process_page (hits1 ++ [hit]) (laws1 ++ [law])).map
        (fun h => h.highlighted_articles) =
      (process_page hits1 laws1).map (fun h => h.highlighted_articles) ++
        [some (fallback_articles law
          (page_matched_article_tags (hits1 ++ [hit]))
          (page_matched_article_classifications (hits1 ++ [hit])))] := by
  unfold process_page
  rw [List.zip_append hlen]
  simp only [List.zip_cons_cons, List.zip_nil_right]
  rw [process_pairs_append, List.map_append]
  congr 1
  rw [pairs_acc_eq, List.map_fst_zip _ _ (le_of_eq hlen)]
  simp only [List.map_cons, List.map_nil, List.nil_append]
  rw [page_matched_tags_append, page_matched_classifications_append] at hne ⊢
  rw [process_hit_articles_fallback _ _ _ hinner hne]

/-- Witness for C10: the second hit has no facet highlight of its own, yet
its fallback reconstruction is driven by the name `adaptation` matched by the
first hit of the page. -/
theorem c10_fallback_uses_page_accumulators_witness :
    (process_page [c10_hit1, c10_hit2] [c10_law1, c10_law2]).map
        (fun h => h.highlighted_articles) =
      (process_page [c10_hit1] [c10_law1]).map
          (fun h => h.highlighted_articles) ++
        [some (fallback_articles c10_law2
          (page_matched_article_tags [c10_hit1, c10_hit2])
          (page_matched_article_classifications [c10_hit1, c10_hit2]))] :=
  c10_fallback_uses_page_accumulators [c10_hit1] [c10_law1] c10_hit2 c10_law2
    rfl rfl (by decide)

/-! ## Claim C9 -/

/-- **C9 (evaluation at the failing input).** Three ranked hits for documents
1, 2 and 3, document 2's relational record deleted: the page does NOT drop
hit 2 and keep the rest intact — `zip(hits, hits.to_queryset())` pairs hit 2
with record 3, so record 3 is delivered carrying hit 2's highlight (`beta`,
which belongs to document 2) while hit 3's highlight (`gamma`) is lost. -/
theorem c9_zip_misalignment :
    (hl_getitem none [c9_law1, c9_law3] [c9_hit1, c9_hit2, c9_hit3]).map
        (fun h => (h.law.pk, h.highlighted_title)) =
      [(1, some "<em>alpha</em>"), (3, some "<em>beta</em>")] ∧
    (hl_getitem none [c9_law1, c9_law3] [c9_hit1, c9_hit2, c9_hit3]).map
        (fun h => (h.law.pk, h.highlighted_title)) ≠
      [(1, some "<em>alpha</em>"), (3, some "<em>gamma</em>")] := by
  constructor
  · rfl
  · decide

/-! ## Claim C8 -/

theorem sortKeyLe_trans (k : String) (a b c : Legislation)
    (h1 : sortKeyLe k a b = true) (h2 : sortKeyLe k b c = true) :
    sortKeyLe k a c = true := by
  unfold sortKeyLe at *
  by_cases hk1 : k = "year"
  · simp only [if_pos hk1, decide_eq_true_eq] at *
    omega
  · simp only [if_neg hk1] at *
    by_cases hk2 : k = "-year"
    · simp only [if_pos hk2, decide_eq_true_eq] at *
      omega
    · simp only [if_neg hk2] at *
      by_cases hk3 : k = "country_name"
      · simp only [if_pos hk3, strLe, decide_eq_true_eq] at *
        exact le_trans h1 h2
      · simp only [if_neg hk3] at *
        by_cases hk4 : k = "-country_name"
        · simp only [if_pos hk4, strLe, decide_eq_true_eq] at *
          exact le_trans h2 h1
        · simp only [if_neg hk4]

theorem sortKeyLe_total (k : String) (a b : Legislation) :
    (sortKeyLe k a b || sortKeyLe k b a) = true := by
  unfold sortKeyLe
  by_cases hk1 : k = "year"
  · simp only [if_pos hk1]
    rcases Int.le_total a.year b.year with h | h <;> simp [h]
  · simp only [if_neg hk1]
    by_cases hk2 : k = "-year"
    · simp only [if_pos hk2]
      rcases Int.le_total a.year b.year with h | h <;> simp [h]
    · simp only [if_neg hk2]
      by_cases hk3 : k = "country_name"
      · simp only [if_pos hk3, strLe]
        rcases le_total a.country_name b.country_name with h | h <;> simp [h]
      · simp only [if_neg hk3]
        by_cases hk4 : k = "-country_name"
        · simp only [if_pos hk4, strLe]
          rcases le_total a.country_name b.country_name with h | h <;> simp [h]
        · simp only [if_neg hk4]
          rfl

/-- **C8.** With an explicit sort parameter the delivered page is a
permutation of the materialized records ordered by the requested field —
ascending when the parameter is `1`, descending for any other truthy value,
`promulgation_sort` choosing the year and `country_sort` the country name —
and no record on this path carries any highlight data. -/
theorem c8_explicit_sort_path (ps cs : Option String) (k : String)
    (store : List Legislation) (hits : List Hit)
    (hk : get_sort ps cs = some k) :
    (truthy ps = true → k = (if ps == some "1" then "year" else "-year")) ∧
    (truthy ps = false → truthy cs = true ∧
      k = (if cs == some "1" then "country_name" else "-country_name")) ∧
    (∀ h ∈ hl_getitem (some k) store hits,
      h.highlighted_abstract = none ∧ h.highlighted_pdf_text = none ∧
      h.highlighted_title = none ∧ h.highlighted_classifications = none ∧
      h.highlighted_tags = none ∧ h.highlighted_articles = none) ∧
    List.Perm ((hl_getitem (some k) store hits).map (fun h => h.law))
      (to_queryset store hits) ∧
    List.Pairwise (fun a b => sortKeyLe k a.law b.law = true)
      (hl_getitem (some k) store hits) := by
  have hmap : (hl_getitem (some k) store hits).map (fun h => h.law) =
      apply_sort k (to_queryset store hits) := by
    simp only [hl_getitem, List.map_map]
    have hcomp : ((fun (h : HydratedLaw) => h.law) ∘ plain_law) =
        fun l => l := rfl
    rw [hcomp, List.map_id']
  refine ⟨?_, ?_, ?_, ?_, ?_⟩
  · intro hp
    unfold get_sort at hk
    rw [if_pos hp] at hk
    by_cases hq : (ps == some "1") = true
    · rw [if_pos hq] at hk
      rw [if_pos hq]
      exact (Option.some_inj.mp hk).symm
    · rw [if_neg hq] at hk
      rw [if_neg hq]
      exact (Option.some_inj.mp hk).symm
  · intro hp
    unfold get_sort at hk
    rw [if_neg (by simp [hp])] at hk
    by_cases hcs : truthy cs = true
    · rw [if_pos hcs] at hk
      refine ⟨hcs, ?_⟩
      by_cases hq : (cs == some "1") = true
      · rw [if_pos hq] at hk
        rw [if_pos hq]
        exact (Option.some_inj.mp hk).symm
      · rw [if_neg hq] at hk
        rw [if_neg hq]
        exact (Option.some_inj.mp hk).symm
    · rw [if_neg hcs] at hk
      exact Option.noConfusion hk
  · intro h hh
    simp only [hl_getitem, List.mem_map] at hh
    obtain ⟨l, _, rfl⟩ := hh
    exact ⟨rfl, rfl, rfl, rfl, rfl, rfl⟩
  · rw [hmap]
    exact List.mergeSort_perm (to_queryset store hits) (sortKeyLe k)
  · have hsorted := List.sorted_mergeSort
      (fun a b c => sortKeyLe_trans k a b c)
      (fun a b => sortKeyLe_total k a b)
      (to_queryset store hits)
    simp only [hl_getitem, List.pairwise_map]
    exact hsorted

/-- Witness for C8: `promulgation_sort=2` (descending year) on two records
delivers a page ordered by descending year, a permutation of the
materialized records. -/
theorem c8_explicit_sort_path_witness :
    List.Pairwise (fun a b => sortKeyLe "-year" a.law b.law = true)
      (hl_getitem (some "-year") c8_store c8_hits) ∧
    List.Perm ((hl_getitem (some "-year") c8_store c8_hits).map
      (fun h => h.law)) (to_queryset c8_store c8_hits) := by
  have h := c8_explicit_sort_path (some "2") none "-year" c8_store c8_hits rfl
  exact ⟨h.2.2.2.2, h.2.2.2.1⟩
